import Mathlib

/-!
Shallow embedding of the stock-screener frontend (static/js/app.js) and
verification of its specification.

JS numbers that the claims touch are modelled as rationals (`ℚ`); the one
place where JS float special values matter (division by zero in the
progress computation) uses an explicit `JSNum` type with NaN/Infinity.
Truthiness of JS values is made explicit at each use site: a numeric value
is falsy exactly when it is 0 (or absent), a string is falsy exactly when
it is empty (or absent); absent / null / undefined values are `Option.none`.
-/

namespace StockScreener

set_option maxRecDepth 8000

/-! ## Renderer: formatting helpers (app.js lines 282-300, 491) -/

/-- JS `x || dflt` for an optional string `x`: the default is taken when the
field is absent or the empty string (both falsy). -/
def jsOrStr (v : Option String) (dflt : String) : String :=
  match v with
  | none => dflt
  | some s => if s = "" then dflt else s

/-- Reversed digit list grouping: inserts a comma after every three digits
(working from the least significant end) when more digits remain. -/
def commaGroupRev : List Char → List Char
  | a :: b :: c :: d :: rest => a :: b :: c :: ',' :: commaGroupRev (d :: rest)
  | l => l

/-- Base-10 rendering of a natural number with thousands separators, as
produced by JS `Number.prototype.toLocaleString` for the integer part. -/
def groupNat (n : Nat) : String :=
  String.mk ((commaGroupRev (toString n).data.reverse).reverse)

/-- Two-digit zero-padded rendering of a value below 100 (the cents part). -/
def pad2 (n : Nat) : String :=
  if n < 10 then "0" ++ toString n else toString n

/-- The value q times k, rounded half away from zero (the default rounding
of `Intl.NumberFormat`, mode `halfExpand`), computed on the reduced
numerator and denominator: for a nonnegative value a/b the result is
(2a + b) / (2b) in truncating integer division. -/
def roundScaled (q : ℚ) (k : ℤ) : ℤ :=
  let n := q.num * k
  let d : ℤ := (q.den : ℤ)
  if 0 ≤ n then (2 * n + d) / (2 * d) else -((2 * (-n) + d) / (2 * d))

/-- JS `price.toLocaleString(undefined, \x7b minimumFractionDigits: 2,
maximumFractionDigits: 2 \x7d)` under the en-US default locale: two decimal
digits, integer part grouped by thousands. -/
def toLocaleString2 (q : ℚ) : String :=
  let cents : ℤ := roundScaled q 100
  (if cents < 0 then "-" else "")
    ++ groupNat (cents.natAbs / 100) ++ "." ++ pad2 (cents.natAbs % 100)

/-- The fixed currency-symbol table of `formatPrice` (app.js line 289). -/
def currencySymbols : List (String × String) :=
  [("USD", "$"), ("EUR", "€"), ("GBP", "£"), ("JPY", "¥"), ("HKD", "HK$")]

/-- `formatPrice(price, currency)` (app.js lines 287-292). `none` models a
null/undefined price; a price of 0 is falsy in JS, so `!price` holds for
both. -/
def formatPrice (price : Option ℚ) (currency : String) : String :=
  match price with
  | none => "-"
  | some p =>
    if p = 0 then "-"
    else
      let symbol := (currencySymbols.lookup currency).getD (currency ++ " ")
      symbol ++ toLocaleString2 p

/-- The severity class chosen by `formatDropPct` (app.js lines 296-298):
start from drop-light, overwrite with drop-medium when `pct >= 25`,
overwrite with drop-heavy when `pct >= 28`. -/
def dropClassName (pct : ℚ) : String :=
  if 25 ≤ pct then (if 28 ≤ pct then "drop-heavy" else "drop-medium")
  else "drop-light"

/-- JS `pct.toFixed(1)`. -/
def toFixed1 (q : ℚ) : String :=
  let tenths : ℤ := roundScaled q 10
  (if tenths < 0 then "-" else "")
    ++ toString (tenths.natAbs / 10) ++ "." ++ toString (tenths.natAbs % 10)

/-- `formatDropPct(pct)` (app.js lines 294-300). A zero (or null) pct is
falsy, so `!pct` renders the placeholder dash. -/
def formatDropPct (pct : ℚ) : String :=
  if pct = 0 then "-"
  else
    "<span class=\"drop-badge " ++ dropClassName pct ++ "\">-"
      ++ toFixed1 pct ++ "%</span>"

/-- JS `s.substring(0, n)`: the first n characters of s (all of s when s is
shorter than n). -/
def strTake (s : String) (n : Nat) : String :=
  String.mk (s.data.take n)

/-- `truncateName(name, maxLength)` (app.js lines 282-285). An empty (or
absent) name is falsy and renders as N/A; `name.substring(0, maxLength)`
is the first `maxLength` characters. -/
def truncateName (name : String) (maxLength : Nat) : String :=
  if name = "" then "N/A"
  else if maxLength < name.length then (strTake name maxLength) ++ "..." else name

/-- The company-description fragment of `renderStockDetails` (app.js line
491): an empty/absent description is falsy and renders nothing; otherwise
`description.substring(0, 300)` followed by an unconditional ellipsis. -/
def descriptionHtml (description : String) : String :=
  if description = "" then ""
  else "<p class=\"text-muted small\">" ++ (strTake description 300) ++ "...</p>"

/-! ## Theorems about the renderer helpers -/

/-- Claim C6: formatPrice uses the fixed symbol table (USD, EUR, GBP, JPY,
HKD) with two-decimal grouped formatting, falls back to a code-plus-space
prefix for any unknown currency code, returns the dash placeholder for a
null or zero price, and in particular maps 1234.5 USD to the string
dollar-1,234.50. -/
theorem formatPrice_spec :
    (∀ c, formatPrice none c = "-") ∧
    (∀ c, formatPrice (some 0) c = "-") ∧
    (∀ c p, currencySymbols.lookup c = none → p ≠ 0 →
      formatPrice (some p) c = c ++ " " ++ toLocaleString2 p) ∧
    formatPrice (some (mkRat 2469 2)) "USD" = "$1,234.50" ∧
    formatPrice (some 1) "USD" = "$1.00" ∧
    formatPrice (some 1) "EUR" = "€1.00" ∧
    formatPrice (some 1) "GBP" = "£1.00" ∧
    formatPrice (some 1) "JPY" = "¥1.00" ∧
    formatPrice (some 1) "HKD" = "HK$1.00" := by
  refine ⟨fun c => rfl, fun c => by simp [formatPrice], ?_,
    by decide, by decide, by decide, by decide, by decide, by decide⟩
  intro c p hlook hp
  simp [formatPrice, hp, hlook]

/-- Witness for C6 at the unknown currency CHF and price 5. -/
theorem formatPrice_spec_witness :
    formatPrice (some 5) "CHF" = "CHF" ++ " " ++ toLocaleString2 5 :=
  formatPrice_spec.2.2.1 ("CHF") 5 (by decide) (by norm_num)

/-- Claim C7 counterexample: at pct = 27.995 (which lies strictly between
27.99 and 28) the code still assigns the medium severity class, so the
claimed medium range 25 to 27.99 does not cover all medium-classified
values. -/
theorem formatDropPct_medium_beyond_2799 :
    dropClassName (mkRat 5599 200) = "drop-medium" ∧
    formatDropPct (mkRat 5599 200) =
      "<span class=\"drop-badge drop-medium\">-28.0%</span>" ∧
    mkRat 2799 100 < mkRat 5599 200 ∧ mkRat 5599 200 < 28 := by
  exact ⟨by decide, by decide, by decide, by decide⟩

/-- Claim C7 (amended): for nonzero pct the badge carries exactly one of
three severity classes, light for pct below 25, medium for 25 up to but
excluding 28, heavy from 28 on; the cited checkpoints 24.9, 25.0 and 28.0
land in the light, medium and heavy tiers respectively. (A zero or null
pct renders the placeholder dash with no badge.) -/
theorem formatDropPct_tiers (pct : ℚ) (h : pct ≠ 0) :
    (pct < 25 → dropClassName pct = "drop-light") ∧
    (25 ≤ pct → pct < 28 → dropClassName pct = "drop-medium") ∧
    (28 ≤ pct → dropClassName pct = "drop-heavy") ∧
    formatDropPct pct =
      "<span class=\"drop-badge " ++ dropClassName pct ++ "\">-"
        ++ toFixed1 pct ++ "%</span>" ∧
    formatDropPct 0 = "-" ∧
    dropClassName (mkRat 249 10) = "drop-light" ∧
    dropClassName 25 = "drop-medium" ∧
    dropClassName 28 = "drop-heavy" := by
  refine ⟨?_, ?_, ?_, by simp [formatDropPct, h], by decide,
    by decide, by decide, by decide⟩
  · intro hl
    have h25 : ¬ (25 ≤ pct) := not_le.mpr hl
    simp [dropClassName, h25]
  · intro h1 h2
    have h28 : ¬ (28 ≤ pct) := not_le.mpr h2
    simp [dropClassName, h1, h28]
  · intro h28
    have h25 : (25 : ℚ) ≤ pct := le_trans (by norm_num) h28
    simp [dropClassName, h25, h28]

/-- Witness for C7 at pct = 25. -/
theorem formatDropPct_tiers_witness :
    ((25 : ℚ) < 25 → dropClassName 25 = "drop-light") ∧
    ((25 : ℚ) ≤ 25 → (25 : ℚ) < 28 → dropClassName 25 = "drop-medium") ∧
    ((28 : ℚ) ≤ 25 → dropClassName 25 = "drop-heavy") ∧
    formatDropPct 25 =
      "<span class=\"drop-badge " ++ dropClassName 25 ++ "\">-"
        ++ toFixed1 25 ++ "%</span>" ∧
    formatDropPct 0 = "-" ∧
    dropClassName (mkRat 249 10) = "drop-light" ∧
    dropClassName 25 = "drop-medium" ∧
    dropClassName 28 = "drop-heavy" :=
  formatDropPct_tiers 25 (by norm_num)

/-- Claim C8: for a non-empty name, truncateName yields the first
maxLength characters plus an ellipsis when the name is longer than
maxLength, and the unchanged name otherwise; the cited 40-character
example truncated at 10 gives its first 10 characters plus the ellipsis. -/
theorem truncateName_spec (name : String) (maxLength : Nat) (h : name ≠ "") :
    (maxLength < name.length →
      truncateName name maxLength = (strTake name maxLength) ++ "...") ∧
    (name.length ≤ maxLength → truncateName name maxLength = name) ∧
    truncateName ("A very long company name exceeding limit") 10
      = "A very lon..." := by
  refine ⟨?_, ?_, by decide⟩
  · intro hl
    simp [truncateName, h, hl]
  · intro hl
    simp [truncateName, h, Nat.not_lt.mpr hl]

/-- Witness for C8 at a two-character name truncated at 1. -/
theorem truncateName_spec_witness :
    (1 < ("AB" : String).length →
      truncateName ("AB") 1 = (strTake ("AB") 1) ++ "...") ∧
    (("AB" : String).length ≤ 1 → truncateName ("AB") 1 = "AB") ∧
    truncateName ("A very long company name exceeding limit") 10
      = "A very lon..." :=
  truncateName_spec ("AB") 1 (by decide)

/-- Claim C9 counterexample: a 5-character description (well under the
300-character cap) is still rendered with a trailing ellipsis, so the
ellipsis is not appended only when the description exceeds the cap. -/
theorem descriptionHtml_short_ellipsis :
    descriptionHtml ("Short") = "<p class=\"text-muted small\">Short...</p>" ∧
    ("Short" : String).length ≤ 300 := by
  exact ⟨by decide, by decide⟩

/-- Claim C9 (amended): every non-empty description is rendered as its
first 300 characters followed by an unconditional ellipsis (the hard cap
holds, but the ellipsis is appended whether or not the description exceeds
it); an empty description renders nothing. -/
theorem descriptionHtml_spec (d : String) (h : d ≠ "") :
    descriptionHtml d
      = "<p class=\"text-muted small\">" ++ (strTake d 300) ++ "...</p>" ∧
    descriptionHtml "" = "" := by
  exact ⟨by simp [descriptionHtml, h], by decide⟩

/-- Witness for C9 at the description Short. -/
theorem descriptionHtml_spec_witness :
    descriptionHtml ("Short")
      = "<p class=\"text-muted small\">" ++ (strTake ("Short") 300)
        ++ "...</p>" ∧
    descriptionHtml "" = "" :=
  descriptionHtml_spec ("Short") (by decide)

/-! ## Scan orchestrator (app.js lines 51-189) -/

/-- A stock record as accumulated by startScan; the safety fields are
absent (undefined) until the enrichment loop sets them. -/
structure Stock where
  ticker : String
  safety_score : Option ℚ
  assessment : Option String
  safety_message : Option String
  critical_keywords : Option (List String)
deriving Repr, DecidableEq

/-- The JSON body of a GET /api/stock/ticker/news response; every field
may be absent. -/
structure NewsAnalysis where
  safety_score : Option ℚ
  assessment : Option String
  message : Option String
  critical_keywords_found : Option (List String)
deriving Repr, DecidableEq

/-- One batch response of POST /api/scan. -/
structure ScanPage where
  stocks : List Stock
  tickers_scanned : Nat
  total_tickers : Nat
  has_more : Bool
deriving Repr, DecidableEq

/-- Outcome of one fetch: an ok response with parsed JSON body, a non-ok
HTTP response (response.ok is false), or a thrown transport error. -/
inductive FetchOutcome (α : Type) where
  | ok (data : α)
  | httpError (status : Nat)
  | transportError (msg : String)
deriving Repr, DecidableEq

/-- The effect of one iteration of the loadAllNewsData loop (app.js lines
165-183) on its stock: an ok response copies the four safety fields with
falsy-value defaults; a non-ok response sets score null, assessment
unknown, message Unable to load; a thrown error sets score null,
assessment unknown, message Error loading. -/
def enrichStock (stock : Stock) (result : FetchOutcome NewsAnalysis) :
    Stock :=
  match result with
  | .ok analysis =>
    { stock with
      safety_score := analysis.safety_score
      assessment := some (jsOrStr analysis.assessment ("unknown"))
      safety_message := some (jsOrStr analysis.message (""))
      critical_keywords := some (analysis.critical_keywords_found.getD []) }
  | .httpError _ =>
    { stock with
      safety_score := none
      assessment := some ("unknown")
      safety_message := some ("Unable to load") }
  | .transportError _ =>
    { stock with
      safety_score := none
      assessment := some ("unknown")
      safety_message := some ("Error loading") }

/-- `loadAllNewsData(stocks)` (app.js lines 160-189): one enrichment fetch
per stock, strictly sequential, starting at position i; the oracle gives
the outcome of the fetch for the stock at each position. Returns the
enriched stocks and the list of positions fetched. -/
def loadAllNewsData (oracle : Nat → FetchOutcome NewsAnalysis) :
    Nat → List Stock → List Stock × List Nat
  | _, [] => ([], [])
  | i, stock :: rest =>
    let enriched := enrichStock stock (oracle i)
    let r := loadAllNewsData oracle (i + 1) rest
    (enriched :: r.1, i :: r.2)

/-- Result of the phase-1 while loop: the batches requested together with
the accumulated stocks and totals, or the first failed fetch, or fuel
exhaustion (the JS loop has no bound of its own). -/
inductive Phase1Result where
  | pages (requests : List Nat) (results : List Stock)
      (totalScanned totalTickers : Nat)
  | fetchError (requests : List Nat) (msg : String)
  | fuelOut (requests : List Nat)
deriving Repr, DecidableEq

/-- The phase-1 while loop of startScan (app.js lines 89-126): request
batch numbers starting at `batch`, accumulate stocks across pages, stop
after the first page whose has_more is false, and throw out of the loop on
a non-ok response (line 106) or a failed fetch. -/
def scanLoop (oracle : Nat → FetchOutcome ScanPage) :
    Nat → Nat → List Stock → Nat → Phase1Result
  | 0, _, _, _ => .fuelOut []
  | fuel + 1, batch, acc, totalScanned =>
    match oracle batch with
    | .httpError status =>
      .fetchError [batch] ("HTTP error! status: " ++ toString status)
    | .transportError msg => .fetchError [batch] msg
    | .ok page =>
      let acc2 := acc ++ page.stocks
      let scanned2 := totalScanned + page.tickers_scanned
      if page.has_more then
        match scanLoop oracle fuel (batch + 1) acc2 scanned2 with
        | .pages reqs results ts tt => .pages (batch :: reqs) results ts tt
        | .fetchError reqs msg => .fetchError (batch :: reqs) msg
        | .fuelOut reqs => .fuelOut (batch :: reqs)
      else .pages [batch] acc2 scanned2 page.total_tickers

/-- Final status of a startScan run. -/
inductive ScanOutcome where
  | validationError (msg : String)
  | scanError (msg : String)
  | noResults
  | success (found : Nat)
  | incomplete
deriving Repr, DecidableEq

/-- What a run of startScan did: which /api/scan batches were requested,
which enrichment positions were fetched, what was handed to
displayAllResults (none when it was never called), and the final status. -/
structure ScanTrace where
  scanRequests : List Nat
  newsRequests : List Nat
  displayed : Option (List Stock)
  outcome : ScanOutcome
deriving Repr, DecidableEq

/-- `startScan()` (app.js lines 51-157) with its environment made
explicit: the selected markets, the parsed-and-defaulted minDrop and
maxDrop values of lines 59-60, one oracle for the /api/scan page fetches
and one for the enrichment fetches, and fuel bounding the unbounded while
loop. Validation (lines 54-57 and 64-67) rejects an empty market list and
then a non-increasing drop range before any fetch. -/
def startScan (markets : List String) (minDrop maxDrop : ℚ)
    (pageOracle : Nat → FetchOutcome ScanPage)
    (newsOracle : Nat → FetchOutcome NewsAnalysis) (fuel : Nat) : ScanTrace :=
  if markets.length = 0 then
    { scanRequests := [], newsRequests := [], displayed := none,
      outcome := .validationError ("Please select at least one market to scan.") }
  else if maxDrop ≤ minDrop then
    { scanRequests := [], newsRequests := [], displayed := none,
      outcome := .validationError ("Min drop must be less than max drop.") }
  else
    match scanLoop pageOracle fuel 0 [] 0 with
    | .fetchError reqs msg =>
      { scanRequests := reqs, newsRequests := [], displayed := none,
        outcome := .scanError ("Error during scan: " ++ msg) }
    | .fuelOut reqs =>
      { scanRequests := reqs, newsRequests := [], displayed := none,
        outcome := .incomplete }
    | .pages reqs results _ _ =>
      if results.length = 0 then
        { scanRequests := reqs, newsRequests := [], displayed := none,
          outcome := .noResults }
      else
        let enriched := loadAllNewsData newsOracle 0 results
        { scanRequests := reqs, newsRequests := enriched.2,
          displayed := some enriched.1,
          outcome := .success enriched.1.length }

/-! ## The phase-1 progress computation (app.js lines 122-123) -/

/-- A JS number for the progress computation: NaN and the infinities must
be representable because JS division by zero does not throw. -/
inductive JSNum where
  | nan
  | posInf
  | negInf
  | fin (q : ℚ)
deriving Repr, DecidableEq

/-- JS division of two finite numbers: 0/0 is NaN, and x/0 for nonzero x
is a signed infinity. -/
def jsDivFin (a b : ℚ) : JSNum :=
  if b = 0 then (if a = 0 then .nan else if 0 < a then .posInf else .negInf)
  else .fin (a / b)

/-- JS multiplication by the positive constant 50 (computed on the reduced
fraction). -/
def jsMul50 : JSNum → JSNum
  | .nan => .nan
  | .posInf => .posInf
  | .negInf => .negInf
  | .fin q => .fin (mkRat (q.num * 50) q.den)

/-- JS multiplication by 2 (the display scaling of line 123). -/
def jsMul2 : JSNum → JSNum
  | .nan => .nan
  | .posInf => .posInf
  | .negInf => .negInf
  | .fin q => .fin (mkRat (q.num * 2) q.den)

/-- JS Math.round on a finite value rounds half toward positive infinity:
the floor of q + 1/2, computed on the reduced fraction with Euclidean
division. NaN and infinities pass through. -/
def jsRound : JSNum → JSNum
  | .nan => .nan
  | .posInf => .posInf
  | .negInf => .negInf
  | .fin q => .fin ((2 * q.num + (q.den : ℤ)).ediv (2 * (q.den : ℤ)))

/-- JS Math.min(c, x) for a finite constant c: NaN propagates. -/
def jsMinFin (c : ℚ) : JSNum → JSNum
  | .nan => .nan
  | .posInf => .fin c
  | .negInf => .negInf
  | .fin q => .fin (min c q)

/-- The phase-1 progress value of app.js line 122:
Math.min(50, Math.round((totalScanned / totalTickers) * 50)). -/
def scanProgress (totalScanned totalTickers : Nat) : JSNum :=
  jsMinFin 50 (jsRound (jsMul50 (jsDivFin (mkRat totalScanned 1)
    (mkRat totalTickers 1))))

/-- The percentage interpolated into the status text at line 123:
scanProgress times 2, mapping phase 1 onto the first half of the 0-100
progress bar. -/
def scanProgressDisplayed (totalScanned totalTickers : Nat) : JSNum :=
  jsMul2 (scanProgress totalScanned totalTickers)

/-! ## Theorems about the enrichment loop -/

/-- The enrichment loop processes the stock at every position with its own
fetch outcome, independent of the outcomes at other positions. -/
theorem loadAllNewsData_pointwise (oracle : Nat → FetchOutcome NewsAnalysis) :
    ∀ (stocks : List Stock) (b j : Nat) (s : Stock),
      stocks[j]? = some s →
      ((loadAllNewsData oracle b stocks).1)[j]? =
        some (enrichStock s (oracle (b + j))) := by
  intro stocks
  induction stocks with
  | nil => intro b j s h; simp at h
  | cons hd tl ih =>
    intro b j s h
    cases j with
    | zero =>
      simp only [List.getElem?_cons_zero, Option.some_inj] at h
      subst h
      simp [loadAllNewsData]
    | succ j =>
      simp only [List.getElem?_cons_succ] at h
      have hrec := ih (b + 1) j s h
      simpa [loadAllNewsData, Nat.add_assoc, Nat.add_comm 1 j] using hrec

/-- The enrichment loop never drops an item. -/
theorem loadAllNewsData_length (oracle : Nat → FetchOutcome NewsAnalysis) :
    ∀ (stocks : List Stock) (b : Nat),
      (loadAllNewsData oracle b stocks).1.length = stocks.length := by
  intro stocks
  induction stocks with
  | nil => intro b; simp [loadAllNewsData]
  | cons hd tl ih => intro b; simp [loadAllNewsData, ih]

/-- Claim C2: in the enrichment loop every item is processed (the output
has one entry per input, each the pointwise enrichment of the input at
that position, so one failure never terminates the loop early), and a
failed item gets assessment unknown with safety score null and message
Unable to load for a non-ok HTTP response or Error loading for a thrown
transport error. -/
theorem loadAllNewsData_failure_isolated
    (oracle : Nat → FetchOutcome NewsAnalysis) (stocks : List Stock)
    (i : Nat) (s : Stock) (hi : stocks[i]? = some s) :
    ((loadAllNewsData oracle 0 stocks).1.length = stocks.length) ∧
    (∀ j t, stocks[j]? = some t →
      ((loadAllNewsData oracle 0 stocks).1)[j]? =
        some (enrichStock t (oracle j))) ∧
    (∀ status, oracle i = .httpError status →
      ((loadAllNewsData oracle 0 stocks).1)[i]? = some
        { s with safety_score := none, assessment := some ("unknown"),
                 safety_message := some ("Unable to load") }) ∧
    (∀ msg, oracle i = .transportError msg →
      ((loadAllNewsData oracle 0 stocks).1)[i]? = some
        { s with safety_score := none, assessment := some ("unknown"),
                 safety_message := some ("Error loading") }) := by
  refine ⟨loadAllNewsData_length oracle stocks 0, ?_, ?_, ?_⟩
  · intro j t ht
    simpa using loadAllNewsData_pointwise oracle stocks 0 j t ht
  · intro status hstatus
    have h := loadAllNewsData_pointwise oracle stocks 0 i s hi
    rw [Nat.zero_add, hstatus] at h
    simpa [enrichStock] using h
  · intro msg hmsg
    have h := loadAllNewsData_pointwise oracle stocks 0 i s hi
    rw [Nat.zero_add, hmsg] at h
    simpa [enrichStock] using h

/-- A blank stock record, as delivered by the scan endpoint before
enrichment. -/
def blankStock (t : String) : Stock := ⟨t, none, none, none, none⟩

/-- A concrete enrichment environment for the C2 witness: the fetch at
position 0 fails at the HTTP level, every other fetch throws. -/
def failingNewsOracle : Nat → FetchOutcome NewsAnalysis := fun i =>
  if i = 0 then FetchOutcome.httpError 500
  else FetchOutcome.transportError ("network down")

/-- Witness for C2: a two-stock list whose first fetch fails at the HTTP
level and whose second fetch throws; both items are enriched. -/
theorem loadAllNewsData_failure_isolated_witness :
    ((loadAllNewsData failingNewsOracle 0
        [blankStock ("AAA"), blankStock ("BBB")]).1.length
      = [blankStock ("AAA"), blankStock ("BBB")].length) ∧
    (∀ j t, [blankStock ("AAA"), blankStock ("BBB")][j]? = some t →
      ((loadAllNewsData failingNewsOracle 0
          [blankStock ("AAA"), blankStock ("BBB")]).1)[j]? =
        some (enrichStock t (failingNewsOracle j))) ∧
    (∀ status, failingNewsOracle 0 = .httpError status →
      ((loadAllNewsData failingNewsOracle 0
          [blankStock ("AAA"), blankStock ("BBB")]).1)[0]? = some
        { (blankStock ("AAA")) with safety_score := none, assessment := some ("unknown"), safety_message := some ("Unable to load") }) ∧
    (∀ msg, failingNewsOracle 0 = .transportError msg →
      ((loadAllNewsData failingNewsOracle 0
          [blankStock ("AAA"), blankStock ("BBB")]).1)[0]? = some
        { (blankStock ("AAA")) with safety_score := none, assessment := some ("unknown"), safety_message := some ("Error loading") }) :=
  loadAllNewsData_failure_isolated failingNewsOracle
    [blankStock ("AAA"), blankStock ("BBB")] 0 (blankStock ("AAA")) rfl

/-- Claim C10: after the enrichment loop every stock carries a present,
non-null assessment; on an ok response each absent field gets its default:
assessment unknown, message the empty string, critical keywords the empty
list. -/
theorem loadAllNewsData_assessment_total
    (oracle : Nat → FetchOutcome NewsAnalysis) (stocks : List Stock)
    (j : Nat) (s : Stock) (hj : stocks[j]? = some s) :
    ∃ t, ((loadAllNewsData oracle 0 stocks).1)[j]? = some t ∧
      t.assessment ≠ none ∧
      (∀ analysis, oracle j = .ok analysis →
        (analysis.assessment = none → t.assessment = some ("unknown")) ∧
        (analysis.message = none → t.safety_message = some ("")) ∧
        (analysis.critical_keywords_found = none →
          t.critical_keywords = some [])) := by
  refine ⟨enrichStock s (oracle j), ?_, ?_, ?_⟩
  · simpa using loadAllNewsData_pointwise oracle stocks 0 j s hj
  · cases h : oracle j <;> simp [enrichStock]
  · intro analysis ha
    rw [ha]
    exact ⟨fun h1 => by simp [enrichStock, h1, jsOrStr],
      fun h2 => by simp [enrichStock, h2, jsOrStr],
      fun h3 => by simp [enrichStock, h3]⟩

/-- Witness for C10: a single stock whose fetch succeeds with a body that
has only a safety score. -/
theorem loadAllNewsData_assessment_total_witness :
    ∃ t, ((loadAllNewsData (fun _ => FetchOutcome.ok ⟨some 80, none, none, none⟩)
        0 [⟨"AAA", none, none, none, none⟩]).1)[0]? = some t ∧
      t.assessment ≠ none ∧
      (∀ analysis,
        (fun _ => FetchOutcome.ok (⟨some 80, none, none, none⟩ : NewsAnalysis)) 0
          = FetchOutcome.ok analysis →
        (analysis.assessment = none → t.assessment = some ("unknown")) ∧
        (analysis.message = none → t.safety_message = some ("")) ∧
        (analysis.critical_keywords_found = none →
          t.critical_keywords = some [])) :=
  loadAllNewsData_assessment_total
    (fun _ => FetchOutcome.ok ⟨some 80, none, none, none⟩)
    [⟨"AAA", none, none, none, none⟩] 0 ⟨"AAA", none, none, none, none⟩ rfl

/-! ## Theorems about startScan -/

/-- Claim C1: with an empty market selection or a non-increasing drop
range, startScan issues no scan request and no enrichment request, renders
nothing, and reports a validation message synchronously. -/
theorem startScan_validation_no_request (markets : List String)
    (minDrop maxDrop : ℚ) (pageOracle : Nat → FetchOutcome ScanPage)
    (newsOracle : Nat → FetchOutcome NewsAnalysis) (fuel : Nat)
    (h : markets = [] ∨ maxDrop ≤ minDrop) :
    ∃ msg,
      startScan markets minDrop maxDrop pageOracle newsOracle fuel =
        { scanRequests := [], newsRequests := [], displayed := none,
          outcome := .validationError msg } := by
  rcases h with h | h
  · exact ⟨"Please select at least one market to scan.", by simp [startScan, h]⟩
  · by_cases hm : markets.length = 0
    · exact ⟨"Please select at least one market to scan.",
        by simp [startScan, hm]⟩
    · exact ⟨"Min drop must be less than max drop.",
        by simp [startScan, hm, h]⟩

/-- Witness for C1 at the cited invalid range minDrop = 30, maxDrop = 20. -/
theorem startScan_validation_no_request_witness :
    ∃ msg,
      startScan ["NYSE"] 30 20
        (fun _ => FetchOutcome.transportError ("unreachable"))
        (fun _ => FetchOutcome.transportError ("unreachable")) 5 =
        { scanRequests := [], newsRequests := [], displayed := none,
          outcome := .validationError msg } :=
  startScan_validation_no_request ["NYSE"] 30 20
    (fun _ => FetchOutcome.transportError ("unreachable"))
    (fun _ => FetchOutcome.transportError ("unreachable")) 5
    (Or.inr (by norm_num))

/-- Claim C4 (code bug): at totalScanned = 0, totalTickers = 0 the
progress expression of app.js line 122 evaluates to NaN (JS 0/0), and the
status line of line 123 interpolates NaN rather than the 0 percent the
specification requires; with totalScanned positive and totalTickers 0 it
evaluates to 50 (displayed 100 percent), not 0. -/
theorem scanProgress_divzero_nan :
    scanProgress 0 0 = JSNum.nan ∧
    scanProgressDisplayed 0 0 = JSNum.nan ∧
    scanProgress 1 0 = JSNum.fin 50 ∧
    JSNum.nan ≠ JSNum.fin 0 := by
  exact ⟨by decide, by decide, by decide, by decide⟩

/-! ## The paged-retrieval loop -/

/-- Peeling the first batch off a consecutive range of batch numbers. -/
theorem range_map_shift (k : Nat) :
    ∀ b, (List.range (k + 1)).map (fun j => b + j)
      = b :: (List.range k).map (fun j => b + 1 + j) := by
  induction k with
  | zero => intro b; simp [List.range_succ]
  | succ k ih =>
    intro b
    rw [List.range_succ, List.map_append, ih b, List.range_succ,
      List.map_append]
    simp [Nat.add_assoc, Nat.add_comm 1 k]

/-- When every page up to k responds ok and page k is the first to report
has_more false, the loop starting at batch b with more than k units of
fuel requests exactly batches b, b+1, ..., b+k. -/
theorem scanLoop_requests (oracle : Nat → FetchOutcome ScanPage) (k : Nat) :
    ∀ (b : Nat) (acc : List Stock) (ts fuel : Nat),
      k + 1 ≤ fuel →
      (∀ j, j ≤ k → ∃ p, oracle (b + j) = .ok p ∧
        p.has_more = decide (j < k)) →
      ∃ results t1 t2,
        scanLoop oracle fuel b acc ts =
          .pages ((List.range (k + 1)).map (fun j => b + j)) results t1 t2 := by
  induction k with
  | zero =>
    intro b acc ts fuel hfuel hok
    obtain ⟨p, hp, hm⟩ := hok 0 (Nat.le_refl 0)
    rw [Nat.add_zero] at hp
    have hm2 : p.has_more = false := by simpa using hm
    match fuel, hfuel with
    | f + 1, _ =>
      exact ⟨acc ++ p.stocks, ts + p.tickers_scanned, p.total_tickers,
        by simp [scanLoop, hp, hm2, List.range_succ]⟩
  | succ k ih =>
    intro b acc ts fuel hfuel hok
    obtain ⟨p, hp, hm⟩ := hok 0 (Nat.zero_le _)
    rw [Nat.add_zero] at hp
    have hm2 : p.has_more = true := by simpa using hm
    match fuel, hfuel with
    | f + 1, hf =>
      have hok2 : ∀ j, j ≤ k → ∃ q, oracle (b + 1 + j) = .ok q ∧
          q.has_more = decide (j < k) := by
        intro j hj
        obtain ⟨q, hq, hqm⟩ := hok (j + 1) (Nat.succ_le_succ hj)
        refine ⟨q, ?_, ?_⟩
        · rw [← hq]; congr 1; omega
        · rw [hqm]; simp [Nat.add_lt_add_iff_right]
      obtain ⟨res, t1, t2, hrec⟩ := ih (b + 1) (acc ++ p.stocks)
        (ts + p.tickers_scanned) f (by omega) hok2
      refine ⟨res, t1, t2, ?_⟩
      rw [range_map_shift]
      simp [scanLoop, hp, hm2, hrec]

/-- When every page before e responds ok with has_more true and the fetch
of page e does not respond ok, the loop fails with a fetch error. -/
theorem scanLoop_error (oracle : Nat → FetchOutcome ScanPage) (e : Nat) :
    ∀ (b : Nat) (acc : List Stock) (ts fuel : Nat),
      e + 1 ≤ fuel →
      (∀ j, j < e → ∃ p, oracle (b + j) = .ok p ∧ p.has_more = true) →
      (∀ p, oracle (b + e) ≠ .ok p) →
      ∃ reqs msg, scanLoop oracle fuel b acc ts = .fetchError reqs msg := by
  induction e with
  | zero =>
    intro b acc ts fuel hfuel hok herr
    match fuel, hfuel with
    | f + 1, _ =>
      cases ho : oracle b with
      | ok p => exact absurd ho (by simpa using herr p)
      | httpError status =>
        exact ⟨[b], "HTTP error! status: " ++ toString status,
          by simp [scanLoop, ho]⟩
      | transportError msg => exact ⟨[b], msg, by simp [scanLoop, ho]⟩
  | succ e ih =>
    intro b acc ts fuel hfuel hok herr
    obtain ⟨p, hp, hm⟩ := hok 0 (Nat.succ_pos e)
    rw [Nat.add_zero] at hp
    match fuel, hfuel with
    | f + 1, hf =>
      obtain ⟨reqs, msg, hrec⟩ := ih (b + 1) (acc ++ p.stocks)
        (ts + p.tickers_scanned) f (by omega)
        (by
          intro j hj
          obtain ⟨q, hq, hqm⟩ := hok (j + 1) (Nat.succ_lt_succ hj)
          exact ⟨q, by rw [← hq]; congr 1; omega, hqm⟩)
        (by
          intro q hcon
          apply herr q
          have hb : b + (e + 1) = b + 1 + e := by omega
          rw [hb]
          exact hcon)
      exact ⟨b :: reqs, msg, by simp [scanLoop, hp, hm, hrec]⟩

/-- Claim C3: for a valid query (non-empty markets, minDrop below maxDrop)
the phase-1 loop requests pages with increasing batch numbers starting at
0; when page k is the first to report has_more false, the requests are
exactly batches 0 through k, so at least one request is issued, the page
after every has_more=true page is requested, and no page is requested
after the first has_more=false page. -/
theorem startScan_paged_requests (markets : List String)
    (minDrop maxDrop : ℚ) (pageOracle : Nat → FetchOutcome ScanPage)
    (newsOracle : Nat → FetchOutcome NewsAnalysis) (fuel k : Nat)
    (hmarkets : markets ≠ []) (hrange : minDrop < maxDrop)
    (hfuel : k + 1 ≤ fuel)
    (hpages : ∀ j, j ≤ k → ∃ p, pageOracle j = .ok p ∧
      p.has_more = decide (j < k)) :
    (startScan markets minDrop maxDrop pageOracle newsOracle fuel).scanRequests
      = List.range (k + 1) := by
  have hlen : ¬ markets.length = 0 := by
    simpa [List.length_eq_zero] using hmarkets
  have hnd : ¬ maxDrop ≤ minDrop := not_le.mpr hrange
  have hpages0 : ∀ j, j ≤ k → ∃ p, pageOracle (0 + j) = .ok p ∧
      p.has_more = decide (j < k) := by simpa using hpages
  obtain ⟨res, t1, t2, hloop⟩ :=
    scanLoop_requests pageOracle k 0 [] 0 fuel hfuel hpages0
  have hmap : (List.range (k + 1)).map (fun j => 0 + j)
      = List.range (k + 1) := by simp
  rw [hmap] at hloop
  simp only [startScan, if_neg hlen, if_neg hnd, hloop]
  split <;> rfl

/-- Witness for C3: two pages, the first reporting has_more true and the
second reporting has_more false; batches 0 and 1 are requested. -/
theorem startScan_paged_requests_witness :
    (startScan ["NYSE"] 20 30
      (fun j => FetchOutcome.ok ⟨[], 0, 0, decide (j < 1)⟩)
      (fun _ => FetchOutcome.transportError ("unreachable")) 2).scanRequests
      = List.range 2 :=
  startScan_paged_requests ["NYSE"] 20 30
    (fun j => FetchOutcome.ok ⟨[], 0, 0, decide (j < 1)⟩)
    (fun _ => FetchOutcome.transportError ("unreachable")) 2 1
    (by simp) (by norm_num) (by norm_num)
    (fun j hj => ⟨⟨[], 0, 0, decide (j < 1)⟩, rfl, rfl⟩)

/-- Claim C5: when a phase-1 page fetch fails (non-ok HTTP response or
thrown transport error) after any number of successful has_more pages, the
whole scan aborts: the final status is an error, no enrichment fetch is
issued, and nothing is handed to the renderer (the partial accumulation
stays undisplayed). -/
theorem startScan_page_error_aborts (markets : List String)
    (minDrop maxDrop : ℚ) (pageOracle : Nat → FetchOutcome ScanPage)
    (newsOracle : Nat → FetchOutcome NewsAnalysis) (fuel e : Nat)
    (hmarkets : markets ≠ []) (hrange : minDrop < maxDrop)
    (hfuel : e + 1 ≤ fuel)
    (hok : ∀ j, j < e → ∃ p, pageOracle j = .ok p ∧ p.has_more = true)
    (herr : ∀ p, pageOracle e ≠ .ok p) :
    ∃ msg,
      (startScan markets minDrop maxDrop pageOracle newsOracle fuel).outcome
        = .scanError msg ∧
      (startScan markets minDrop maxDrop pageOracle newsOracle
        fuel).newsRequests = [] ∧
      (startScan markets minDrop maxDrop pageOracle newsOracle
        fuel).displayed = none := by
  have hlen : ¬ markets.length = 0 := by
    simpa [List.length_eq_zero] using hmarkets
  have hnd : ¬ maxDrop ≤ minDrop := not_le.mpr hrange
  obtain ⟨reqs, msg, hloop⟩ := scanLoop_error pageOracle e 0 [] 0 fuel hfuel
    (by simpa using hok) (by simpa using herr)
  exact ⟨"Error during scan: " ++ msg,
    by simp [startScan, hlen, hnd, hloop]⟩

/-- Witness for C5: the very first page fetch returns a non-ok HTTP
response. -/
theorem startScan_page_error_aborts_witness :
    ∃ msg,
      (startScan ["NYSE"] 20 30 (fun _ => FetchOutcome.httpError 500)
        (fun _ => FetchOutcome.transportError ("unreachable")) 1).outcome
        = .scanError msg ∧
      (startScan ["NYSE"] 20 30 (fun _ => FetchOutcome.httpError 500)
        (fun _ => FetchOutcome.transportError ("unreachable")) 1).newsRequests
        = [] ∧
      (startScan ["NYSE"] 20 30 (fun _ => FetchOutcome.httpError 500)
        (fun _ => FetchOutcome.transportError ("unreachable")) 1).displayed
        = none :=
  startScan_page_error_aborts ["NYSE"] 20 30
    (fun _ => FetchOutcome.httpError 500)
    (fun _ => FetchOutcome.transportError ("unreachable")) 1 0
    (by simp) (by norm_num) (Nat.le_refl 1)
    (fun j hj => absurd hj (Nat.not_lt_zero j))
    (fun p h => by cases h)

end StockScreener
